import Mathlib

/-!
Shallow embedding of the telescope-client logging pipeline
(`src/lib.rs` together with the prost-generated message types of
`src/opentelclient.rs`), and proofs about its capture, batching and
export-retry behaviour.

Modelling conventions:
* Rust `Vec<T>` becomes `List T`; `u64`/`u32` timestamps and counters
  become `Nat`; the `i32`/`i64` protobuf integers become `Int`.
* The `mpsc::sync_channel` content is modelled as a FIFO `List LogRecord`
  (head = oldest element); `send` appends at the tail, `try_recv` pops
  the head.
* A Rust panic (indexing a `HashMap` at a missing key) is modelled as
  `Except.error` with the panic message.
* Wall-clock time is passed in explicitly: `unix_nano` to the capture
  path, and `elapsed_ms` (the value of `last_send.elapsed()` at the
  flush decision point) to the worker step.
-/

namespace Telescope

/-- The `any_value::Value` oneof from `opentelclient.rs`, restricted to the
variants the client code constructs (`StringValue`, `IntValue`). -/
inductive Value where
  | StringValue : String → Value
  | IntValue : Int → Value
deriving DecidableEq, Repr

/-- `AnyValue` message: an optional oneof value. -/
structure AnyValue where
  value : Option Value
deriving DecidableEq, Repr

/-- `KeyValue` message: a key with an optional `AnyValue`. -/
structure KeyValue where
  key : String
  value : Option AnyValue
deriving DecidableEq, Repr

/-- `InstrumentationScope` message (never set by this client). -/
structure InstrumentationScope where
  name : String
  version : String
  attributes : List KeyValue
  dropped_attributes_count : Nat
deriving DecidableEq, Repr

/-- `Resource` message. -/
structure Resource where
  attributes : List KeyValue
  dropped_attributes_count : Nat
deriving DecidableEq, Repr

/-- `LogRecord` message. -/
structure LogRecord where
  time_unix_nano : Nat
  observed_time_unix_nano : Nat
  severity_number : Int
  severity_text : String
  body : Option AnyValue
  attributes : List KeyValue
  dropped_attributes_count : Nat
  flags : Nat
  trace_id : List Nat
  span_id : List Nat
deriving DecidableEq, Repr

/-- `ScopeLogs` message. -/
structure ScopeLogs where
  scope : Option InstrumentationScope
  log_records : List LogRecord
  schema_url : String
deriving DecidableEq, Repr

/-- `ResourceLogs` message. -/
structure ResourceLogs where
  resource : Option Resource
  scope_logs : List ScopeLogs
  schema_url : String
deriving DecidableEq, Repr

/-- `ExportLogsServiceRequest` message. -/
structure ExportLogsServiceRequest where
  resource_logs : List ResourceLogs
deriving DecidableEq, Repr

/-- The `tracing::Level` severity levels. -/
inductive Level where
  | TRACE
  | DEBUG
  | INFO
  | WARN
  | ERROR
deriving DecidableEq, Repr

/-- Position of a level in the documented severity order
Trace < Debug < Info < Warn < Error (used only to state "severity ≥ Info"
the way the spec phrases it; the code itself compares with `==`). -/
def levelOrd : Level → Nat
  | Level.TRACE => 0
  | Level.DEBUG => 1
  | Level.INFO => 2
  | Level.WARN => 3
  | Level.ERROR => 4

/-- The `Display` rendering of a `tracing::Level`, as produced by
`level().to_string()` in `on_event`. -/
def levelDisplay : Level → String
  | Level.TRACE => "TRACE"
  | Level.DEBUG => "DEBUG"
  | Level.INFO => "INFO"
  | Level.WARN => "WARN"
  | Level.ERROR => "ERROR"

/-- The severity-number match arm of `on_event`
(`TRACE=1, DEBUG=5, INFO=9, WARN=13, ERROR=17`). -/
def severityNumberOf : Level → Int
  | Level.TRACE => 1
  | Level.DEBUG => 5
  | Level.INFO => 9
  | Level.WARN => 13
  | Level.ERROR => 17

/-- Call-site metadata of a `tracing` event: level, and optional source
file and line, mirroring `event.metadata()`. -/
structure Metadata where
  level : Level
  file : Option String
  line : Option Nat
deriving DecidableEq, Repr

/-- A `tracing` event: its metadata and its structured fields in visit
order, each already rendered to the string `format!("{:?}", value)`
produces (which is what `FieldVisitor.record_debug` stores). -/
structure Event where
  metadata : Metadata
  fields : List (String × String)
deriving DecidableEq, Repr

/-- One `HashMap::insert`: a later value for the same key replaces the
earlier one, a fresh key is added. -/
def hashMapInsert (m : List (String × String)) (k v : String) :
    List (String × String) :=
  if m.any (fun p => p.1 = k) then
    m.map (fun p => if p.1 = k then (k, v) else p)
  else
    m ++ [(k, v)]

/-- The map built by `event.record(&mut visitor)` with `FieldVisitor`:
every field is inserted under its name with its rendered value. -/
def visitorValues (fields : List (String × String)) :
    List (String × String) :=
  fields.foldl (fun m p => hashMapInsert m p.1 p.2) []

/-- The `LogRecord` literal constructed by `on_event` once the body has
been looked up, factored out so theorems can refer to it by name. -/
def capturedRecord (event : Event) (unix_nano : Nat) (body : String) :
    LogRecord :=
  { time_unix_nano := unix_nano
    observed_time_unix_nano := unix_nano
    severity_number := severityNumberOf event.metadata.level
    severity_text := levelDisplay event.metadata.level
    body := some { value := some (Value.StringValue body) }
    attributes :=
      [ { key := "file"
          value := event.metadata.file.map
            (fun file => { value := some (Value.StringValue file) }) },
        { key := "line"
          value := event.metadata.line.map
            (fun line => { value := some (Value.IntValue (Int.ofNat line)) }) } ]
    dropped_attributes_count := 0
    flags := 0
    trace_id := []
    span_id := [] }

/-- `TelescopeLayer::on_event`, acting on the handoff queue.
Returns the capture outcome and the queue afterwards.  The queue is the
`sync_channel` content; `tx.send` appends at the tail.  Indexing
`visitor.values["message"]` at a missing key panics in Rust; the panic
is modelled as `Except.error` and, since it fires before `send`, it
leaves the queue untouched. -/
def on_event (event : Event) (unix_nano : Nat) (queue : List LogRecord) :
    Except String Unit × List LogRecord :=
  if event.metadata.level = Level.INFO
      ∨ event.metadata.level = Level.WARN
      ∨ event.metadata.level = Level.ERROR then
    match (visitorValues event.fields).lookup "message" with
    | none => (Except.error "no entry found for key", queue)
    | some body =>
      (Except.ok (), queue ++ [capturedRecord event unix_nano body])
  else
    (Except.ok (), queue)

/-- One drain pass of `start_logging_thread`:
`while let Ok(record) = rx.try_recv() { buffer.push(record); if buffer.len() == 1000 { break; } }`.
Returns the buffer and the queue after the pass. -/
def drainPass (buffer queue : List LogRecord) :
    List LogRecord × List LogRecord :=
  match queue with
  | [] => (buffer, [])
  | record :: rest =>
    let buffer' := buffer ++ [record]
    if buffer'.length = 1000 then (buffer', rest)
    else drainPass buffer' rest

/-- The `ResourceLogs` envelope assembled in the flush loop of
`start_logging_thread`. -/
def buildResourceLogs (service_name : String) (records : List LogRecord) :
    ResourceLogs :=
  { resource := some
      { attributes :=
          [ { key := "service.name"
              value := some { value := some (Value.StringValue service_name) } } ]
        dropped_attributes_count := 0 }
    scope_logs :=
      [ { scope := none
          log_records := records
          schema_url := "" } ]
    schema_url := "" }

/-- The `ExportLogsServiceRequest` handed to `client.export`. -/
def buildRequest (service_name : String) (records : List LogRecord) :
    ExportLogsServiceRequest :=
  { resource_logs := [buildResourceLogs service_name records] }

/-- The inner retry loop of `start_logging_thread`.  `outcomes` gives the
result of each successive `client.export` call (`true` = `Ok`); the loop
body rebuilds the request from `buffer.drain(..)` on every iteration,
exactly as in the source, and stops at the first successful call (the
model also stops when `outcomes` runs out, returning the attempts made
so far).  Returns the requests handed to `export`, one per attempt, and
the buffer as the loop leaves it. -/
def exportRetryLoop (service_name : String) (buffer : List LogRecord)
    (outcomes : List Bool) :
    List ExportLogsServiceRequest × List LogRecord :=
  match outcomes with
  | [] => ([], buffer)
  | ok :: rest =>
    let request := buildRequest service_name buffer
    if ok then ([request], [])
    else
      let next := exportRetryLoop service_name [] rest
      (request :: next.1, next.2)

/-- State of the batching worker between loop iterations: its in-memory
buffer, the queue content, and `last_send.elapsed()` in milliseconds as
read at the flush decision point. -/
structure WorkerState where
  buffer : List LogRecord
  queue : List LogRecord
  elapsed_ms : Nat
deriving DecidableEq, Repr

/-- One iteration of the worker loop in `start_logging_thread`: a drain
pass, then the flush decision `buffer.len() >= 100 || last_send.elapsed().as_millis() >= 1000`;
on flush the retry loop runs and `last_send` is reset (elapsed 0), else
the thread sleeps 100 ms (elapsed grows by 100).  Returns the flush's
export requests (`none` when no flush happened) and the next state. -/
def workerStep (service_name : String) (st : WorkerState)
    (outcomes : List Bool) :
    Option (List ExportLogsServiceRequest) × WorkerState :=
  let d := drainPass st.buffer st.queue
  if d.1.length ≥ 100 ∨ st.elapsed_ms ≥ 1000 then
    let e := exportRetryLoop service_name d.1 outcomes
    (some e.1, { buffer := e.2, queue := d.2, elapsed_ms := 0 })
  else
    (none, { buffer := d.1, queue := d.2, elapsed_ms := st.elapsed_ms + 100 })

/-- All log records carried by a request, in order (flattening the
resource-logs / scope-logs nesting). -/
def scopeRecords (rl : ResourceLogs) : List LogRecord :=
  rl.scope_logs.foldr (fun sl acc => sl.log_records ++ acc) []

/-- All log records carried by an `ExportLogsServiceRequest`, in order. -/
def requestRecords (req : ExportLogsServiceRequest) : List LogRecord :=
  req.resource_logs.foldr (fun rl acc => scopeRecords rl ++ acc) []

/-- A concrete record used in witnesses and counterexamples. -/
def sampleRecord : LogRecord :=
  { time_unix_nano := 0
    observed_time_unix_nano := 0
    severity_number := 9
    severity_text := "INFO"
    body := some { value := some (Value.StringValue "hello") }
    attributes := []
    dropped_attributes_count := 0
    flags := 0
    trace_id := []
    span_id := [] }

/-! ## Helper lemmas -/

/-- A drain pass moves some prefix of the queue onto the end of the buffer
and leaves the corresponding suffix in the queue. -/
theorem drainPass_eq_take_drop (queue buffer : List LogRecord) :
    ∃ k, drainPass buffer queue = (buffer ++ queue.take k, queue.drop k) := by
  induction queue generalizing buffer with
  | nil => exact ⟨0, by simp [drainPass]⟩
  | cons r rest ih =>
    by_cases h : (buffer ++ [r]).length = 1000
    · exact ⟨1, by simp [drainPass, h]⟩
    · obtain ⟨k, hk⟩ := ih (buffer ++ [r])
      refine ⟨k + 1, ?_⟩
      simp only [drainPass]
      rw [if_neg h, hk]
      simp [List.append_assoc]

/-- When buffer and queue together hold at most 1000 records, the drain
pass takes the whole queue. -/
theorem drainPass_of_length_le (queue buffer : List LogRecord)
    (h : buffer.length + queue.length ≤ 1000) :
    drainPass buffer queue = (buffer ++ queue, []) := by
  induction queue generalizing buffer with
  | nil => simp [drainPass]
  | cons r rest ih =>
    simp only [drainPass]
    by_cases h1000 : (buffer ++ [r]).length = 1000
    · have hrest : rest = [] := by
        rw [List.length_append, List.length_singleton] at h1000
        simp only [List.length_cons] at h
        exact List.length_eq_zero.mp (by omega)
      subst hrest
      simp [h1000]
    · rw [if_neg h1000, ih (buffer ++ [r]) (by simp at h ⊢; omega)]
      simp

/-- A drain pass starting below the cap never grows the buffer past 1000. -/
theorem drainPass_length_le (queue buffer : List LogRecord)
    (h : buffer.length < 1000) :
    (drainPass buffer queue).1.length ≤ 1000 := by
  induction queue generalizing buffer with
  | nil => simpa [drainPass] using Nat.le_of_lt h
  | cons r rest ih =>
    simp only [drainPass]
    by_cases h1000 : (buffer ++ [r]).length = 1000
    · rw [if_pos h1000]
      simp [h1000]
    · rw [if_neg h1000]
      apply ih
      rw [List.length_append, List.length_singleton] at h1000 ⊢
      omega

/-- Every request the retry loop hands to export was built either from the
drained buffer (first attempt) or from the then-empty buffer (retries). -/
theorem exportRetryLoop_mem (service_name : String) (buffer : List LogRecord)
    (outcomes : List Bool) (req : ExportLogsServiceRequest)
    (h : req ∈ (exportRetryLoop service_name buffer outcomes).1) :
    req = buildRequest service_name buffer ∨ req = buildRequest service_name [] := by
  induction outcomes generalizing buffer with
  | nil => simp [exportRetryLoop] at h
  | cons ok rest ih =>
    simp only [exportRetryLoop] at h
    cases ok with
    | true =>
      simp at h
      exact Or.inl h
    | false =>
      simp at h
      rcases h with h | h
      · exact Or.inl h
      · rcases ih [] h with h' | h' <;> exact Or.inr h'

/-- Flattening the fixed envelope recovers exactly the batch records. -/
theorem requestRecords_buildRequest (service_name : String)
    (records : List LogRecord) :
    requestRecords (buildRequest service_name records) = records := by
  simp [requestRecords, buildRequest, buildResourceLogs, scopeRecords]

/-- At an enabled severity with a present message field, `on_event`
succeeds and appends exactly the captured record. -/
theorem on_event_enabled_of_message (event : Event) (unix_nano : Nat)
    (queue : List LogRecord) (message : String)
    (hsev : 2 ≤ levelOrd event.metadata.level)
    (hmsg : (visitorValues event.fields).lookup "message" = some message) :
    on_event event unix_nano queue =
      (Except.ok (), queue ++ [capturedRecord event unix_nano message]) := by
  obtain ⟨⟨lvl, file, line⟩, fields⟩ := event
  cases lvl <;> simp_all [on_event, levelOrd]

/-! ## Claims -/

/-- C1: the claim says the batch handed to the eventually-successful export
attempt is byte-identical to the one handed to the first attempt.  The code
rebuilds the request from `buffer.drain(..)` inside the retry loop, so the
drained records go only into the failed first request: with one record
buffered and the first attempt failing, the successful second attempt is
handed an empty record list — the batch is lost, not retried. -/
theorem C1_retry_loses_batch :
    (exportRetryLoop "svc" [sampleRecord] [false, true]).1 =
      [buildRequest "svc" [sampleRecord], buildRequest "svc" []] ∧
    requestRecords (buildRequest "svc" [sampleRecord]) = [sampleRecord] ∧
    requestRecords (buildRequest "svc" []) = [] := by
  refine ⟨rfl, ?_, ?_⟩ <;> simp [requestRecords, buildRequest, buildResourceLogs, scopeRecords]

/-- C2: after a drain pass, a flush (assembly of a batch and hand-off to
export) occurs if and only if the buffered record count is at least 100 or
the elapsed time since the last flush is at least 1000 ms. -/
theorem C2_flush_iff_thresholds (service_name : String) (st : WorkerState)
    (outcomes : List Bool) :
    (workerStep service_name st outcomes).1.isSome ↔
      (100 ≤ (drainPass st.buffer st.queue).1.length ∨ 1000 ≤ st.elapsed_ms) := by
  by_cases h : 100 ≤ (drainPass st.buffer st.queue).1.length ∨ 1000 ≤ st.elapsed_ms
  · simp [workerStep, h]
  · simp [workerStep, h]

/-- C3 counterexample: with 150 records queued within the first time window
the single drain pass (cap 1000, not 100) takes all of them, so the first
flush batch carries 150 records, not exactly 100 as claimed. -/
theorem C3_first_flush_has_150_records :
    ((workerStep "svc"
        { buffer := [], queue := List.replicate 150 sampleRecord, elapsed_ms := 10 }
        [true]).1).map
        (fun requests => requests.map (fun req => (requestRecords req).length)) =
      some [150] ∧ (150 : Nat) ≠ 100 := by
  constructor
  · rfl
  · decide

/-- C3 amended: when 150 records sit in the queue with an empty buffer, the
drain pass (hard cap 1000) takes all 150 and the count threshold fires: the
first flush batch contains all 150 records in order, and no records remain
buffered or queued for a later time-triggered flush. -/
theorem C3_single_flush_of_all_150 (service_name : String)
    (records : List LogRecord) (elapsed_ms : Nat)
    (h : records.length = 150) :
    workerStep service_name
        { buffer := [], queue := records, elapsed_ms := elapsed_ms } [true] =
      (some [buildRequest service_name records],
       { buffer := [], queue := [], elapsed_ms := 0 }) := by
  have hd : drainPass [] records = ([] ++ records, []) :=
    drainPass_of_length_le records [] (by simp [h])
  simp only [List.nil_append] at hd
  simp [workerStep, hd, exportRetryLoop, h]

/-- Witness for the amended C3 at a concrete queue of 150 records. -/
theorem C3_single_flush_of_all_150_witness :
    (List.replicate 150 sampleRecord).length = 150 ∧
    workerStep "svc"
        { buffer := [], queue := List.replicate 150 sampleRecord, elapsed_ms := 10 }
        [true] =
      (some [buildRequest "svc" (List.replicate 150 sampleRecord)],
       { buffer := [], queue := [], elapsed_ms := 0 }) :=
  ⟨by simp, C3_single_flush_of_all_150 "svc" (List.replicate 150 sampleRecord) 10 (by simp)⟩

/-- C4: at severity ≥ Info with no `message` among the rendered fields,
capture fails with the missing-body condition (the Rust code panics when
indexing the visitor map) and the queue is exactly as before: no record is
enqueued. -/
theorem C4_missing_message_fails_queue_unchanged (event : Event)
    (unix_nano : Nat) (queue : List LogRecord)
    (hsev : 2 ≤ levelOrd event.metadata.level)
    (hmsg : (visitorValues event.fields).lookup "message" = none) :
    on_event event unix_nano queue =
      (Except.error "no entry found for key", queue) := by
  obtain ⟨⟨lvl, file, line⟩, fields⟩ := event
  cases lvl <;> simp only [levelOrd] at hsev <;> try omega
  all_goals simp [on_event, hmsg]

/-- Witness for C4 at a concrete Error-level event without a message. -/
theorem C4_missing_message_fails_queue_unchanged_witness :
    2 ≤ levelOrd Level.ERROR ∧
    (visitorValues [("user", "alice")]).lookup "message" = none ∧
    on_event
        { metadata := { level := Level.ERROR, file := some "main.rs", line := some 7 }
          fields := [("user", "alice")] } 3 [sampleRecord] =
      (Except.error "no entry found for key", [sampleRecord]) :=
  ⟨by decide, by decide,
   C4_missing_message_fails_queue_unchanged _ 3 _ (by decide) (by decide)⟩

/-- C5: events with severity strictly below Info (Trace or Debug) leave the
handoff queue exactly as it was: nothing is enqueued. -/
theorem C5_low_severity_no_queue_mutation (event : Event) (unix_nano : Nat)
    (queue : List LogRecord) (h : levelOrd event.metadata.level < 2) :
    on_event event unix_nano queue = (Except.ok (), queue) := by
  obtain ⟨⟨lvl, file, line⟩, fields⟩ := event
  cases lvl <;> simp_all [on_event, levelOrd]

/-- Witness for C5 at a concrete Debug-level event. -/
theorem C5_low_severity_no_queue_mutation_witness :
    levelOrd Level.DEBUG < 2 ∧
    on_event
        { metadata := { level := Level.DEBUG, file := none, line := none }
          fields := [("message", "dbg")] } 5 [] = (Except.ok (), []) :=
  ⟨by decide, C5_low_severity_no_queue_mutation _ 5 [] (by decide)⟩

/-- C6: at severity ≥ Info with a `message` field, exactly one record is
appended to the queue; its body is the rendered message and its severity
number follows the mapping Trace=1, Debug=5, Info=9, Warn=13, Error=17. -/
theorem C6_one_record_enqueued (event : Event) (unix_nano : Nat)
    (queue : List LogRecord) (message : String)
    (hsev : 2 ≤ levelOrd event.metadata.level)
    (hmsg : (visitorValues event.fields).lookup "message" = some message) :
    (on_event event unix_nano queue =
        (Except.ok (), queue ++ [capturedRecord event unix_nano message]) ∧
      (capturedRecord event unix_nano message).body =
        some { value := some (Value.StringValue message) } ∧
      (capturedRecord event unix_nano message).severity_number =
        severityNumberOf event.metadata.level) ∧
    severityNumberOf Level.TRACE = 1 ∧ severityNumberOf Level.DEBUG = 5 ∧
    severityNumberOf Level.INFO = 9 ∧ severityNumberOf Level.WARN = 13 ∧
    severityNumberOf Level.ERROR = 17 :=
  ⟨⟨on_event_enabled_of_message event unix_nano queue message hsev hmsg, rfl, rfl⟩,
   rfl, rfl, rfl, rfl, rfl⟩

/-- Witness for C6 at a concrete Info-level event with a message. -/
theorem C6_one_record_enqueued_witness :
    2 ≤ levelOrd Level.INFO ∧
    (visitorValues [("message", "hi")]).lookup "message" = some "hi" ∧
    on_event
        { metadata := { level := Level.INFO, file := none, line := none }
          fields := [("message", "hi")] } 0 [] =
      (Except.ok (),
       [capturedRecord
          { metadata := { level := Level.INFO, file := none, line := none }
            fields := [("message", "hi")] } 0 "hi"]) :=
  ⟨by decide, by decide,
   (C6_one_record_enqueued _ 0 [] "hi" (by decide) (by decide)).1.1⟩

/-- C7: the drain pass stops at the hard cap of 1000, so from any reachable
worker state (buffer below the cap) every request a flush hands to export
carries at most 1000 records. -/
theorem C7_no_batch_exceeds_1000 (service_name : String) (st : WorkerState)
    (outcomes : List Bool) (requests : List ExportLogsServiceRequest)
    (req : ExportLogsServiceRequest)
    (hbuf : st.buffer.length < 1000)
    (hflush : (workerStep service_name st outcomes).1 = some requests)
    (hreq : req ∈ requests) :
    (requestRecords req).length ≤ 1000 := by
  by_cases h : 100 ≤ (drainPass st.buffer st.queue).1.length ∨ 1000 ≤ st.elapsed_ms
  · have hreqs : requests = (exportRetryLoop service_name (drainPass st.buffer st.queue).1 outcomes).1 := by
      simp [workerStep, h] at hflush
      exact hflush.symm
    subst hreqs
    rcases exportRetryLoop_mem _ _ _ _ hreq with h' | h' <;> subst h' <;>
      rw [requestRecords_buildRequest]
    · exact drainPass_length_le st.queue st.buffer hbuf
    · simp
  · simp [workerStep, h] at hflush

/-- Witness for C7 at a concrete time-triggered flush of one record. -/
theorem C7_no_batch_exceeds_1000_witness :
    (requestRecords (buildRequest "svc" [sampleRecord])).length ≤ 1000 :=
  C7_no_batch_exceeds_1000 "svc"
    { buffer := [], queue := [sampleRecord], elapsed_ms := 1000 } [true]
    [buildRequest "svc" [sampleRecord]] (buildRequest "svc" [sampleRecord])
    (by decide) (by decide) (by decide)

/-- C8: a drain pass moves a prefix of the queue, in order, onto the end of
the worker's buffer — no record is duplicated, dropped into the wrong place,
or reordered — and a flush embeds the buffer into the export request
unchanged, so queue order is batch order. -/
theorem C8_order_preserved (buffer queue : List LogRecord)
    (service_name : String) :
    (∃ k, drainPass buffer queue = (buffer ++ queue.take k, queue.drop k)) ∧
    ∀ records : List LogRecord,
      requestRecords (buildRequest service_name records) = records :=
  ⟨drainPass_eq_take_drop queue buffer,
   fun records => requestRecords_buildRequest service_name records⟩

/-- C9 counterexample: an Info event whose metadata carries neither file nor
line still gets both attribute entries — keys "file" and "line" with unset
values — rather than having them omitted from the attribute list. -/
theorem C9_absent_values_not_omitted :
    ((on_event
        { metadata := { level := Level.INFO, file := none, line := none }
          fields := [("message", "hi")] } 0 []).2.map LogRecord.attributes) =
      [[{ key := "file", value := none }, { key := "line", value := none }]] ∧
    ({ key := "file", value := none } : KeyValue) ∈
      (capturedRecord
        { metadata := { level := Level.INFO, file := none, line := none }
          fields := [("message", "hi")] } 0 "hi").attributes := by
  constructor
  · rfl
  · decide

/-- C9 amended: every captured record carries exactly the two attributes
keyed "file" and "line", in that order; when the event metadata provides a
value it is attached (file as string, line as int), and when it is absent
the attribute's value is left unset (None) while the key stays in the
list. -/
theorem C9_file_line_attributes (event : Event) (unix_nano : Nat)
    (queue : List LogRecord) (message : String)
    (hsev : 2 ≤ levelOrd event.metadata.level)
    (hmsg : (visitorValues event.fields).lookup "message" = some message) :
    on_event event unix_nano queue =
        (Except.ok (), queue ++ [capturedRecord event unix_nano message]) ∧
    (capturedRecord event unix_nano message).attributes =
      [ { key := "file"
          value := event.metadata.file.map
            (fun file => { value := some (Value.StringValue file) }) },
        { key := "line"
          value := event.metadata.line.map
            (fun line => { value := some (Value.IntValue (Int.ofNat line)) }) } ] :=
  ⟨on_event_enabled_of_message event unix_nano queue message hsev hmsg, rfl⟩

/-- Witness for the amended C9 at a concrete event with a file but no
line. -/
theorem C9_file_line_attributes_witness :
    2 ≤ levelOrd Level.WARN ∧
    (visitorValues [("message", "warned")]).lookup "message" = some "warned" ∧
    (capturedRecord
        { metadata := { level := Level.WARN, file := some "src/lib.rs", line := none }
          fields := [("message", "warned")] } 9 "warned").attributes =
      [ { key := "file", value := some { value := some (Value.StringValue "src/lib.rs") } },
        { key := "line", value := none } ] :=
  ⟨by decide, by decide,
   (C9_file_line_attributes
      { metadata := { level := Level.WARN, file := some "src/lib.rs", line := none }
        fields := [("message", "warned")] } 9 [] "warned" (by decide) (by decide)).2⟩

/-- C10: every request the flush loop hands to export has the fixed
envelope: exactly one ResourceLogs whose resource carries the single
attribute "service.name" with the configured service name, containing
exactly one ScopeLogs with no instrumentation scope and an empty schema
URL, holding all of the batch's records. -/
theorem C10_envelope_shape (service_name : String) (buffer : List LogRecord)
    (outcomes : List Bool) (req : ExportLogsServiceRequest)
    (h : req ∈ (exportRetryLoop service_name buffer outcomes).1) :
    ∃ records : List LogRecord,
      req = { resource_logs :=
        [ { resource := some
              { attributes :=
                  [ { key := "service.name"
                      value := some { value := some (Value.StringValue service_name) } } ]
                dropped_attributes_count := 0 }
            scope_logs :=
              [ { scope := none, log_records := records, schema_url := "" } ]
            schema_url := "" } ] } := by
  rcases exportRetryLoop_mem service_name buffer outcomes req h with h' | h'
  · exact ⟨buffer, h'⟩
  · exact ⟨[], h'⟩

/-- Witness for C10 at a concrete one-record flush. -/
theorem C10_envelope_shape_witness :
    ∃ records : List LogRecord,
      buildRequest "svc" [sampleRecord] = { resource_logs :=
        [ { resource := some
              { attributes :=
                  [ { key := "service.name"
                      value := some { value := some (Value.StringValue "svc") } } ]
                dropped_attributes_count := 0 }
            scope_logs :=
              [ { scope := none, log_records := records, schema_url := "" } ]
            schema_url := "" } ] } :=
  C10_envelope_shape "svc" [sampleRecord] [true] (buildRequest "svc" [sampleRecord])
    (by simp [exportRetryLoop])

end Telescope
